import Mathlib

/-!
Verification of the temperature-sensitivity modeling core of `eemeter`
(`eemeter/models/temperature_sensitivity.py`), shallowly embedded over exact
rational arithmetic (`ℚ` in place of IEEE floats).

Daily temperatures for one billing period are a `List ℚ`; a series is a
`List (List ℚ)` (one inner list per period).  Observed average daily usage is a
`List (Option ℚ)`, `none` standing for numpy's NaN sentinel, which the code
masks out with `np.ma.masked_array(..., np.isnan(...))`.
-/

/-- Embedding of `np.maximum(x, y)` for scalars: the pointwise maximum.
Written with `if` so that the kernel can evaluate it on concrete rationals. -/
def np_maximum (x y : ℚ) : ℚ := if x ≤ y then y else x

/-- Embedding of `np.min` on a non-empty array (the empty case never arises:
every period holds at least one daily reading). -/
def np_min : List ℚ → ℚ
  | [] => 0
  | t :: ts => ts.foldl min t

/-- Embedding of `np.max` on a non-empty array. -/
def np_max : List ℚ → ℚ
  | [] => 0
  | t :: ts => ts.foldl max t

/-- Embedding of `np.count_nonzero`. -/
def np_count_nonzero (l : List ℚ) : ℕ := l.countP (fun x => decide (x ≠ 0))

/-- Degree-Day Kernel, heating side: the quantity
`np.sum(np.maximum(bp - interval_daily_temps, 0))` computed inline by every
model variant (temperature_sensitivity.py lines 80, 108). -/
def hdd (bp : ℚ) (temps : List ℚ) : ℚ :=
  (temps.map (fun t => np_maximum (bp - t) 0)).sum

/-- Degree-Day Kernel, cooling side: the quantity
`np.sum(np.maximum(interval_daily_temps - bp, 0))` computed inline by the dual
and cooling model variants (temperature_sensitivity.py lines 79, 136). -/
def cdd (bp : ℚ) (temps : List ℚ) : ℚ :=
  (temps.map (fun t => np_maximum (t - bp) 0)).sum

namespace HDDCDDBalancePointModel

/-- `HDDCDDBalancePointModel.compute_usage_estimates` (lines 54-83):
`params = (ts_low, ts_high, base_load, bp_low, bp_diff)`, `bp_high = bp_low +
bp_diff`; for each period, `cooling = np.maximum(temps - bp_high, 0)*ts_high`,
`heating = np.maximum(bp_low - temps, 0)*ts_low`, and the appended total is
`np.sum(cooling + heating) + base_load*len(temps)`. -/
def compute_usage_estimates (params : ℚ × ℚ × ℚ × ℚ × ℚ)
    (observed_daily_temps : List (List ℚ)) : List ℚ :=
  match params with
  | (ts_low, ts_high, base_load, bp_low, bp_diff) =>
    let bp_high := bp_low + bp_diff
    observed_daily_temps.map (fun interval_daily_temps =>
      let cooling := interval_daily_temps.map
        (fun t => np_maximum (t - bp_high) 0 * ts_high)
      let heating := interval_daily_temps.map
        (fun t => np_maximum (bp_low - t) 0 * ts_low)
      (List.zipWith (· + ·) cooling heating).sum
        + base_load * interval_daily_temps.length)

end HDDCDDBalancePointModel

namespace HDDBalancePointModel

/-- `HDDBalancePointModel.compute_usage_estimates` (lines 87-111):
`params = (reference_temperature, base_level_consumption, heating_slope)`; for
each period the appended total is
`np.sum(np.maximum(reference_temperature - temps, 0)*heating_slope)
 + base_level_consumption*len(temps)`. -/
def compute_usage_estimates (params : ℚ × ℚ × ℚ)
    (observed_daily_temps : List (List ℚ)) : List ℚ :=
  match params with
  | (reference_temperature, base_level_consumption, heating_slope) =>
    observed_daily_temps.map (fun interval_daily_temps =>
      (interval_daily_temps.map
        (fun t => np_maximum (reference_temperature - t) 0 * heating_slope)).sum
        + base_level_consumption * interval_daily_temps.length)

end HDDBalancePointModel

namespace CDDBalancePointModel

/-- `CDDBalancePointModel.compute_usage_estimates` (lines 115-139):
`params = (reference_temperature, base_level_consumption, cooling_slope)`; for
each period the appended total is
`np.sum(np.maximum(temps - reference_temperature, 0)*cooling_slope)
 + base_level_consumption*len(temps)`. -/
def compute_usage_estimates (params : ℚ × ℚ × ℚ)
    (observed_daily_temps : List (List ℚ)) : List ℚ :=
  match params with
  | (reference_temperature, base_level_consumption, cooling_slope) =>
    observed_daily_temps.map (fun interval_daily_temps =>
      (interval_daily_temps.map
        (fun t => np_maximum (t - reference_temperature) 0 * cooling_slope)).sum
        + base_level_consumption * interval_daily_temps.length)

end CDDBalancePointModel

/-! ### Helper lemmas -/

lemma np_maximum_eq_max (x y : ℚ) : np_maximum x y = max x y := by
  simp only [np_maximum, max_def]

lemma zipWith_add_map_sum (f g : ℚ → ℚ) (l : List ℚ) :
    (List.zipWith (· + ·) (l.map f) (l.map g)).sum
      = (l.map f).sum + (l.map g).sum := by
  induction l with
  | nil => simp
  | cons a l ih => simp [ih] ; ring

/-- The per-period total of the dual-balance-point model equals
`ts_low * HDD(bp_low) + ts_high * CDD(bp_high) + base_load * days`. -/
lemma interval_total_eq (ts_low ts_high base_load bp_low bp_high : ℚ)
    (p : List ℚ) :
    (List.zipWith (· + ·)
        (p.map (fun t => np_maximum (t - bp_high) 0 * ts_high))
        (p.map (fun t => np_maximum (bp_low - t) 0 * ts_low))).sum
      + base_load * p.length
    = ts_low * hdd bp_low p + ts_high * cdd bp_high p + base_load * p.length := by
  rw [zipWith_add_map_sum, hdd, cdd, List.sum_map_mul_right, List.sum_map_mul_right]
  ring

/-! ### Claims C2, C5, C6, C7 -/

/-- Claim C2: for every parameter vector `(ts_low, ts_high, base_load, bp_low,
bp_diff)` and every daily temperature series,
`HDDCDDBalancePointModel.compute_usage_estimates` returns, for each period,
`ts_low * HDD(bp_low) + ts_high * CDD(bp_high) + base_load * days` with
`bp_high = bp_low + bp_diff`; and for params `(1, 1, 0, 65, 5)` on the single
period `[60, 70, 80]` the predicted period total is exactly 15. -/
theorem HDDCDD_compute_usage_estimates_spec :
    (∀ (ts_low ts_high base_load bp_low bp_diff : ℚ)
        (observed_daily_temps : List (List ℚ)),
      HDDCDDBalancePointModel.compute_usage_estimates
          (ts_low, ts_high, base_load, bp_low, bp_diff) observed_daily_temps
        = observed_daily_temps.map (fun p =>
            ts_low * hdd bp_low p + ts_high * cdd (bp_low + bp_diff) p
              + base_load * p.length))
    ∧ HDDCDDBalancePointModel.compute_usage_estimates
        (1, 1, 0, 65, 5) [[60, 70, 80]] = [15] := by
  constructor
  · intro ts_low ts_high base_load bp_low bp_diff observed_daily_temps
    simp only [HDDCDDBalancePointModel.compute_usage_estimates]
    refine List.map_congr_left (fun p _ => ?_)
    exact interval_total_eq ts_low ts_high base_load bp_low (bp_low + bp_diff) p
  · norm_num [HDDCDDBalancePointModel.compute_usage_estimates, np_maximum]

/-- Claim C5: for every parameter vector `(reference_temperature, base_load,
heating_slope)` and every daily temperature series,
`HDDBalancePointModel.compute_usage_estimates` returns, for each period,
`heating_slope * HDD(reference_temperature) + base_load * days`; and for params
`(65, 10, 2)` on two periods of 30 days all at 50 degrees, the predicted
average daily usage (period total divided by 30) is exactly 40 per period. -/
theorem HDD_compute_usage_estimates_spec :
    (∀ (reference_temperature base_level_consumption heating_slope : ℚ)
        (observed_daily_temps : List (List ℚ)),
      HDDBalancePointModel.compute_usage_estimates
          (reference_temperature, base_level_consumption, heating_slope)
          observed_daily_temps
        = observed_daily_temps.map (fun p =>
            heating_slope * hdd reference_temperature p
              + base_level_consumption * p.length))
    ∧ (HDDBalancePointModel.compute_usage_estimates (65, 10, 2)
          [List.replicate 30 50, List.replicate 30 50]).map (fun tot => tot / 30)
        = [40, 40] := by
  constructor
  · intro rt blc hs observed_daily_temps
    simp only [HDDBalancePointModel.compute_usage_estimates]
    refine List.map_congr_left (fun p _ => ?_)
    rw [hdd, List.sum_map_mul_right]
    ring
  · norm_num [HDDBalancePointModel.compute_usage_estimates, np_maximum,
      List.replicate]

/-- Claim C6: for a fixed period of daily temperatures, the heating degree-day
sum is monotone nondecreasing in the balance point and the cooling degree-day
sum is monotone nonincreasing: `bp1 ≤ bp2` implies `HDD(bp1) ≤ HDD(bp2)` and
`CDD(bp1) ≥ CDD(bp2)`. -/
theorem degree_days_monotone_in_balance_point
    (bp1 bp2 : ℚ) (temps : List ℚ) (h : bp1 ≤ bp2) :
    hdd bp1 temps ≤ hdd bp2 temps ∧ cdd bp2 temps ≤ cdd bp1 temps := by
  constructor
  · refine List.sum_le_sum (fun t _ => ?_)
    simp only [np_maximum]
    split <;> split <;> simp_all <;> linarith
  · refine List.sum_le_sum (fun t _ => ?_)
    simp only [np_maximum]
    split <;> split <;> simp_all <;> linarith

/-- Witness for C6 at `bp1 = 60`, `bp2 = 65`, `temps = [62]`. -/
theorem degree_days_monotone_in_balance_point_witness :
    hdd 60 [62] ≤ hdd 65 [62] ∧ cdd 65 [62] ≤ cdd 60 [62] :=
  degree_days_monotone_in_balance_point 60 65 [62] (by norm_num)

/-- Claim C7: on a non-empty period in which no day's temperature crosses the
balance point (every reading equals `bp`), the heating and cooling degree-day
sums are both exactly 0: the `max(x, 0)` boundary is inclusive and a boundary
day contributes zero. -/
theorem degree_days_zero_when_no_crossing
    (bp : ℚ) (temps : List ℚ) (_hne : temps ≠ [])
    (hall : ∀ t ∈ temps, t = bp) :
    hdd bp temps = 0 ∧ cdd bp temps = 0 := by
  constructor
  · refine List.sum_eq_zero (fun x hx => ?_)
    obtain ⟨t, ht, rfl⟩ := List.mem_map.mp hx
    rw [hall t ht]
    simp [np_maximum]
  · refine List.sum_eq_zero (fun x hx => ?_)
    obtain ⟨t, ht, rfl⟩ := List.mem_map.mp hx
    rw [hall t ht]
    simp [np_maximum]

/-- Witness for C7 at `bp = 65` on the period `[65, 65]`. -/
theorem degree_days_zero_when_no_crossing_witness :
    hdd 65 [65, 65] = 0 ∧ cdd 65 [65, 65] = 0 :=
  degree_days_zero_when_no_crossing 65 [65, 65] (by simp)
    (by intro t ht ; simpa using ht)

/-! ### Parameter optimizer: masked objective pipeline (lines 17-38) -/

/-- `n_daily_temps = np.array([len(temps) for temps in observed_daily_temps])`
(line 20). -/
def n_daily_temps (observed_daily_temps : List (List ℚ)) : List ℕ :=
  observed_daily_temps.map List.length

/-- Elementwise `usages_est / n_daily_temps` (line 33). -/
def avg_usages_est (usages_est : List ℚ) (n_days : List ℕ) : List ℚ :=
  List.zipWith (fun e m => e / (m : ℚ)) usages_est n_days

/-- Elementwise masked-array subtraction `average_daily_usages -
avg_usages_est`: a masked (NaN) entry stays masked. -/
def masked_sub (a : List (Option ℚ)) (b : List ℚ) : List (Option ℚ) :=
  List.zipWith (fun x y => x.map (fun v => v - y)) a b

/-- Elementwise masked-array squaring `(...)**2`. -/
def masked_sq (a : List (Option ℚ)) : List (Option ℚ) :=
  a.map (Option.map (fun v => v ^ 2))

/-- Elementwise masked-array multiplication `(...)*weights` (aligned case). -/
def masked_mul (a : List (Option ℚ)) (w : List ℚ) : List (Option ℚ) :=
  List.zipWith (fun x y => x.map (fun v => v * y)) a w

/-- `np.sum` of a masked array: masked entries are skipped. -/
def masked_np_sum (a : List (Option ℚ)) : ℚ :=
  (a.map (fun x => x.getD 0)).sum

/-- `objective_function` of `ModelBase.parameter_optimization` (lines 31-34),
abstract in the `compute` closure selected at lines 25-28:
`np.sum(((average_daily_usages - usages_est/n_daily_temps)**2)*weights)` over
the masked usage array. -/
def objective_function (compute : ℚ × ℚ × ℚ × ℚ × ℚ → List ℚ)
    (average_daily_usages : List (Option ℚ)) (n_days : List ℕ)
    (weights : List ℚ) (params : ℚ × ℚ × ℚ × ℚ × ℚ) : ℚ :=
  masked_np_sum
    (masked_mul
      (masked_sq (masked_sub average_daily_usages
        (avg_usages_est (compute params) n_days)))
      weights)

/-- The masked objective pipeline ignores the per-period data of masked
periods: if two temperature series agree on every period whose observed usage
is unmasked, the pipeline value is unchanged. -/
lemma masked_pipeline_invariant (g : List ℚ → ℚ) :
    ∀ (us : List (Option ℚ)) (t1 t2 : List (List ℚ)) (w : List ℚ),
    us.length = t1.length → us.length = t2.length →
    (∀ i, i < us.length → (us.getD i none).isSome = true →
      t1.getD i [] = t2.getD i []) →
    masked_np_sum (masked_mul (masked_sq (masked_sub us
        (avg_usages_est (t1.map g) (n_daily_temps t1)))) w)
      = masked_np_sum (masked_mul (masked_sq (masked_sub us
          (avg_usages_est (t2.map g) (n_daily_temps t2)))) w) := by
  intro us
  induction us with
  | nil => intro t1 t2 w _ _ _ ; rfl
  | cons u us ih =>
    intro t1 t2 w h1 h2 hall
    match t1, t2 with
    | a :: t1, b :: t2 =>
      match w with
      | [] => rfl
      | w0 :: w =>
        have hrest : masked_np_sum (masked_mul (masked_sq (masked_sub us
            (avg_usages_est (t1.map g) (n_daily_temps t1)))) w)
          = masked_np_sum (masked_mul (masked_sq (masked_sub us
              (avg_usages_est (t2.map g) (n_daily_temps t2)))) w) := by
          refine ih t1 t2 w (by simpa using h1) (by simpa using h2) ?_
          intro i hi hs
          have := hall (i + 1) (by simpa using Nat.succ_lt_succ hi) (by simpa using hs)
          simpa using this
        cases u with
        | none =>
          simp only [n_daily_temps, List.map_cons, avg_usages_est,
            List.zipWith_cons_cons, masked_sub, masked_sq, masked_mul,
            masked_np_sum, Option.map_none, Option.getD_none, List.sum_cons]
          exact congrArg (fun z => 0 + z) (by
            simpa only [masked_sub, masked_sq, masked_mul, masked_np_sum,
              avg_usages_est, n_daily_temps] using hrest)
        | some x =>
          have hab : a = b := by
            have := hall 0 (by simp) (by simp)
            simpa using this
          subst hab
          simp only [n_daily_temps, List.map_cons, avg_usages_est,
            List.zipWith_cons_cons, masked_sub, masked_sq, masked_mul,
            masked_np_sum, List.sum_cons]
          exact congrArg (fun z => (x - g a / (a.length : ℚ)) ^ 2 * w0 + z) (by
            simpa only [masked_sub, masked_sq, masked_mul, masked_np_sum,
              avg_usages_est, n_daily_temps] using hrest)

/-- Claim C3: a period whose observed average daily usage is NaN is excluded
from the objective: two `parameter_optimization` calls whose inputs differ
only in the daily temperatures of masked periods produce objective functions
that take equal values at every candidate parameter vector (shown for the
dual-balance-point model's `compute` closure of line 28). -/
theorem objective_masked_periods_have_no_influence
    (params : ℚ × ℚ × ℚ × ℚ × ℚ) (average_daily_usages : List (Option ℚ))
    (temps1 temps2 : List (List ℚ)) (weights : List ℚ)
    (hlen1 : average_daily_usages.length = temps1.length)
    (hlen2 : average_daily_usages.length = temps2.length)
    (heq : ∀ i, i < average_daily_usages.length →
      (average_daily_usages.getD i none).isSome = true →
      temps1.getD i [] = temps2.getD i []) :
    objective_function
        (fun x => HDDCDDBalancePointModel.compute_usage_estimates x temps1)
        average_daily_usages (n_daily_temps temps1) weights params
      = objective_function
          (fun x => HDDCDDBalancePointModel.compute_usage_estimates x temps2)
          average_daily_usages (n_daily_temps temps2) weights params := by
  obtain ⟨tl, th, b, bl, bd⟩ := params
  exact masked_pipeline_invariant
    (fun interval_daily_temps =>
      (List.zipWith (· + ·)
        (interval_daily_temps.map
          (fun t => np_maximum (t - (bl + bd)) 0 * th))
        (interval_daily_temps.map
          (fun t => np_maximum (bl - t) 0 * tl))).sum
        + b * interval_daily_temps.length)
    average_daily_usages temps1 temps2 weights hlen1 hlen2 heq

/-- Witness for C3: the masked second period's temperatures change from
`[70]` to `[80]` without changing the objective value. -/
theorem objective_masked_periods_have_no_influence_witness :
    objective_function
        (fun x => HDDCDDBalancePointModel.compute_usage_estimates x [[60], [70]])
        [some 1, none] (n_daily_temps [[60], [70]]) [1, 1] (1, 1, 0, 65, 5)
      = objective_function
          (fun x => HDDCDDBalancePointModel.compute_usage_estimates x [[60], [80]])
          [some 1, none] (n_daily_temps [[60], [80]]) [1, 1] (1, 1, 0, 65, 5) :=
  objective_masked_periods_have_no_influence (1, 1, 0, 65, 5)
    [some 1, none] [[60], [70]] [[60], [80]] [1, 1] (by simp) (by simp)
    (by
      intro i hi hs
      match i with
      | 0 => rfl
      | 1 => simp at hs
      | n + 2 => simp at hi)

/-- The objective as the specification words it: the weighted sum, over
non-masked periods, of the squared difference between the observed average
daily usage and the model's predicted period total (the dual-model Degree-Day
Kernel formula) divided by the number of days in that period. -/
def weighted_sse_of_spec :
    List (Option ℚ) → List (List ℚ) → List ℚ → ℚ × ℚ × ℚ × ℚ × ℚ → ℚ
  | some u :: us, t :: ts, w0 :: w, (tl, th, b, bl, bd) =>
    (u - (tl * hdd bl t + th * cdd (bl + bd) t + b * t.length)
        / (t.length : ℚ)) ^ 2 * w0
      + weighted_sse_of_spec us ts w (tl, th, b, bl, bd)
  | none :: us, _ :: ts, _ :: w, p => weighted_sse_of_spec us ts w p
  | _, _, _, _ => 0

/-- One step of the masked objective pipeline over aligned cons cells. -/
lemma masked_pipeline_cons (g : List ℚ → ℚ) (u : Option ℚ)
    (us : List (Option ℚ)) (t : List ℚ) (ts : List (List ℚ))
    (w0 : ℚ) (w : List ℚ) :
    masked_np_sum (masked_mul (masked_sq (masked_sub (u :: us)
        (avg_usages_est ((t :: ts).map g) (n_daily_temps (t :: ts))))) (w0 :: w))
      = (match u with
         | some x => (x - g t / (t.length : ℚ)) ^ 2 * w0
         | none => 0)
        + masked_np_sum (masked_mul (masked_sq (masked_sub us
            (avg_usages_est (ts.map g) (n_daily_temps ts)))) w) := by
  cases u <;>
    simp [masked_sub, masked_sq, masked_mul, masked_np_sum, avg_usages_est,
      n_daily_temps]

/-- Claim C4: at every candidate parameter vector, the objective minimized by
`ModelBase.parameter_optimization` equals the weighted sum, over non-masked
periods, of the squared difference between the observed average daily usage
and the model's predicted period total divided by the number of days in that
period. -/
theorem objective_function_eq_weighted_sse
    (params : ℚ × ℚ × ℚ × ℚ × ℚ) (average_daily_usages : List (Option ℚ))
    (temps : List (List ℚ)) (weights : List ℚ)
    (hlen1 : average_daily_usages.length = temps.length)
    (hlen2 : weights.length = temps.length) :
    objective_function
        (fun x => HDDCDDBalancePointModel.compute_usage_estimates x temps)
        average_daily_usages (n_daily_temps temps) weights params
      = weighted_sse_of_spec average_daily_usages temps weights params := by
  obtain ⟨tl, th, b, bl, bd⟩ := params
  induction average_daily_usages generalizing temps weights with
  | nil =>
    have h1 : temps = [] := by
      cases temps with
      | nil => rfl
      | cons t ts => simp at hlen1
    subst h1
    have h2 : weights = [] := List.length_eq_zero.mp (by simpa using hlen2)
    subst h2
    rfl
  | cons u us ih =>
    match temps, weights with
    | t :: ts, w0 :: w =>
      have hrec := ih ts w (by simpa using hlen1) (by simpa using hlen2)
      show masked_np_sum (masked_mul (masked_sq (masked_sub (u :: us)
          (avg_usages_est ((t :: ts).map (fun interval_daily_temps =>
            (List.zipWith (· + ·)
              (interval_daily_temps.map
                (fun x => np_maximum (x - (bl + bd)) 0 * th))
              (interval_daily_temps.map
                (fun x => np_maximum (bl - x) 0 * tl))).sum
              + b * interval_daily_temps.length))
            (n_daily_temps (t :: ts))))) (w0 :: w))
        = weighted_sse_of_spec (u :: us) (t :: ts) (w0 :: w) (tl, th, b, bl, bd)
      rw [masked_pipeline_cons]
      cases u with
      | none =>
        simpa only [weighted_sse_of_spec, zero_add] using hrec
      | some x =>
        simp only [weighted_sse_of_spec]
        rw [interval_total_eq tl th b bl (bl + bd) t]
        exact congrArg
          (fun z => (x - (tl * hdd bl t + th * cdd (bl + bd) t
            + b * t.length) / (t.length : ℚ)) ^ 2 * w0 + z) hrec

/-- Witness for C4 on the two-period input with one masked period. -/
theorem objective_function_eq_weighted_sse_witness :
    objective_function
        (fun x => HDDCDDBalancePointModel.compute_usage_estimates x [[60], [70]])
        [some 1, none] (n_daily_temps [[60], [70]]) [1, 1] (1, 1, 0, 65, 5)
      = weighted_sse_of_spec [some 1, none] [[60], [70]] [1, 1] (1, 1, 0, 65, 5) :=
  objective_function_eq_weighted_sse (1, 1, 0, 65, 5) [some 1, none]
    [[60], [70]] [1, 1] (by simp) (by simp)

/-- Claim C8 (the code evaluated at an all-masked input): with observed usage
NaN for every period — here `[NaN, NaN]` against daily temperatures
`[[60], [70]]` and default weights `[1, 1]` — `parameter_optimization`
performs no rejection: every entry of the masked objective pipeline is masked,
so the objective handed to `opt.minimize` is vacuous (no unmasked summand; its
masked reduction is the constant degenerate value) at every candidate
parameter vector. -/
theorem all_masked_objective_is_vacuous (params : ℚ × ℚ × ℚ × ℚ × ℚ) :
    masked_mul (masked_sq (masked_sub [none, none]
        (avg_usages_est
          (HDDCDDBalancePointModel.compute_usage_estimates params [[60], [70]])
          (n_daily_temps [[60], [70]])))) [1, 1] = [none, none]
    ∧ objective_function
        (fun x => HDDCDDBalancePointModel.compute_usage_estimates x [[60], [70]])
        [none, none] (n_daily_temps [[60], [70]]) [1, 1] params = 0 := by
  obtain ⟨tl, th, b, bl, bd⟩ := params
  constructor
  · simp [masked_sub, masked_sq, masked_mul, avg_usages_est, n_daily_temps,
      HDDCDDBalancePointModel.compute_usage_estimates]
  · simp [objective_function, masked_sub, masked_sq, masked_mul, masked_np_sum,
      avg_usages_est, n_daily_temps,
      HDDCDDBalancePointModel.compute_usage_estimates]

/-! ### Weights handling (lines 22-23) under numpy semantics -/

/-- The Python truth test of `weights == None` when `weights` is a numeric
numpy array (numpy >= 1.13 semantics): the comparison broadcasts elementwise
to an all-`False` boolean array, and `bool(...)` of an array with more than
one element raises `ValueError`; a zero- or one-element array of `False`
tests false. -/
def np_eq_none_truth_test (ws : List ℚ) : Except String Bool :=
  if 1 < ws.length then
    Except.error
      "ValueError: The truth value of an array with more than one element is ambiguous"
  else Except.ok false

/-- Lines 22-23 of `parameter_optimization`: `if weights == None: weights =
np.ones(len(average_daily_usages))`, with `none` standing for an omitted
(None) weights argument. -/
def resolve_weights (average_daily_usages : List (Option ℚ))
    (weights : Option (List ℚ)) : Except String (List ℚ) :=
  match weights with
  | none => Except.ok (List.replicate average_daily_usages.length 1)
  | some ws =>
    match np_eq_none_truth_test ws with
    | Except.error e => Except.error e
    | Except.ok true => Except.ok (List.replicate average_daily_usages.length 1)
    | Except.ok false => Except.ok ws

/-- numpy elementwise multiplication of the masked squared-error array by the
weights array, with numpy's broadcasting rules: equal lengths multiply
pairwise, a one-element operand broadcasts, anything else raises. -/
def np_broadcast_mul (a : List (Option ℚ)) (w : List ℚ) :
    Except String (List (Option ℚ)) :=
  if a.length = w.length then Except.ok (masked_mul a w)
  else if w.length = 1 then
    Except.ok (a.map (Option.map (fun v => v * w.headD 0)))
  else if a.length = 1 then
    Except.ok (w.map (fun y => (a.headD none).map (fun v => v * y)))
  else Except.error "ValueError: operands could not be broadcast together"

/-- The objective-evaluation path of `parameter_optimization` including the
weights defaulting of lines 22-23 and numpy's broadcasting in the final
multiplication, as an `Except` pipeline: an `error` is a Python exception
raised on that path. -/
def objective_function_np (average_daily_usages : List (Option ℚ))
    (observed_daily_temps : List (List ℚ)) (weights : Option (List ℚ))
    (params : ℚ × ℚ × ℚ × ℚ × ℚ) : Except String ℚ :=
  match resolve_weights average_daily_usages weights with
  | Except.error e => Except.error e
  | Except.ok w =>
    match np_broadcast_mul
        (masked_sq (masked_sub average_daily_usages
          (avg_usages_est
            (HDDCDDBalancePointModel.compute_usage_estimates params
              observed_daily_temps)
            (n_daily_temps observed_daily_temps))))
        w with
    | Except.error e => Except.error e
    | Except.ok prod => Except.ok (masked_np_sum prod)

/-- Counterexample to claim C9: a supplied weight vector of length 1 against
three billing periods (length mismatch) does not make the call fail at all —
the `weights == None` test passes (one-element comparison array is falsy), the
weights silently broadcast across all three periods, and the objective
evaluates to `ok 6` at params `(0, 0, 0, 0, 0)`. -/
theorem length_one_weights_broadcast_silently :
    objective_function_np [some 1, some 1, some 1] [[60], [60], [60]]
        (some [2]) (0, 0, 0, 0, 0) = Except.ok 6
    ∧ resolve_weights [some 1, some 1, some 1] (some [2]) = Except.ok [2] := by
  constructor
  · norm_num [objective_function_np, resolve_weights, np_eq_none_truth_test,
      np_broadcast_mul, masked_sub, masked_sq, masked_mul, masked_np_sum,
      avg_usages_est, n_daily_temps, np_maximum,
      HDDCDDBalancePointModel.compute_usage_estimates]
  · rfl

/-- Claim C9 as amended: when the supplied weight vector is a numpy array of
more than one element the call does fail before any optimization work — but
through the elementwise `weights == None` truth test, whatever the vector's
length — while a one-element weight vector whose length differs from the
period count is silently broadcast rather than rejected; when no weights are
supplied, every period receives weight 1. -/
theorem weights_handling_amended :
    (∀ (average_daily_usages : List (Option ℚ))
        (observed_daily_temps : List (List ℚ)) (ws : List ℚ)
        (params : ℚ × ℚ × ℚ × ℚ × ℚ), 1 < ws.length →
      objective_function_np average_daily_usages observed_daily_temps
          (some ws) params
        = Except.error
            "ValueError: The truth value of an array with more than one element is ambiguous")
    ∧ (∀ (a : List (Option ℚ)) (w0 : ℚ),
        np_broadcast_mul a [w0] = Except.ok (a.map (Option.map (fun v => v * w0))))
    ∧ (∀ average_daily_usages : List (Option ℚ),
        resolve_weights average_daily_usages none
          = Except.ok (List.replicate average_daily_usages.length 1)) := by
  refine ⟨?_, ?_, ?_⟩
  · intro us ts ws params hws
    have h : np_eq_none_truth_test ws = Except.error
        "ValueError: The truth value of an array with more than one element is ambiguous" := by
      simp [np_eq_none_truth_test, hws]
    simp [objective_function_np, resolve_weights, h]
  · intro a w0
    match a with
    | [] => rfl
    | [x] =>
      simp [np_broadcast_mul, masked_mul]
    | x :: y :: a =>
      have hlen : (x :: y :: a).length = [w0].length ↔ False := by
        simp
      simp [np_broadcast_mul, hlen]
  · intro us
    rfl

/-- Witness for the amended C9: a two-element weight vector fails the truth
test before optimization. -/
theorem weights_handling_amended_witness :
    objective_function_np [some 1] [[60]] (some [1, 1]) (0, 0, 0, 0, 0)
      = Except.error
          "ValueError: The truth value of an array with more than one element is ambiguous" :=
  weights_handling_amended.1 [some 1] [[60]] [1, 1] (0, 0, 0, 0, 0) (by norm_num)

/-- Claim C10: a numeric weights array with more than one element makes the
truth test `weights == None` raise before any optimization runs, so a fit
with an explicitly supplied multi-element weight vector never completes. -/
theorem multi_element_weights_truth_test_raises
    (ws : List ℚ) (hws : 1 < ws.length) :
    (∀ average_daily_usages : List (Option ℚ),
      resolve_weights average_daily_usages (some ws)
        = Except.error
            "ValueError: The truth value of an array with more than one element is ambiguous")
    ∧ (∀ (average_daily_usages : List (Option ℚ))
        (observed_daily_temps : List (List ℚ)) (params : ℚ × ℚ × ℚ × ℚ × ℚ),
      objective_function_np average_daily_usages observed_daily_temps
          (some ws) params
        = Except.error
            "ValueError: The truth value of an array with more than one element is ambiguous") := by
  have h : np_eq_none_truth_test ws = Except.error
      "ValueError: The truth value of an array with more than one element is ambiguous" := by
    simp [np_eq_none_truth_test, hws]
  constructor
  · intro us
    simp [resolve_weights, h]
  · intro us ts params
    simp [objective_function_np, resolve_weights, h]

/-- Witness for C10 at the two-element weight vector `[1, 2]`. -/
theorem multi_element_weights_truth_test_raises_witness :
    resolve_weights [some 1] (some [1, 2])
      = Except.error
          "ValueError: The truth value of an array with more than one element is ambiguous" :=
  (multi_element_weights_truth_test_raises [1, 2] (by norm_num)).1 [some 1]

/-! ### Grid Interpolation Accelerator: `precompute_usage_estimates`
(lines 157-232) -/

/-- `bp_cool_min = bounds[3][0] + bounds[4][0] - 1.0/bp_scale` (line 168). -/
def bp_cool_min (bounds : List (ℚ × ℚ)) (bp_scale : ℚ) : ℚ :=
  (bounds.getD 3 (0, 0)).1 + (bounds.getD 4 (0, 0)).1 - 1 / bp_scale

/-- `bp_heat_max = bounds[3][1] + 1.0/bp_scale` (line 169). -/
def bp_heat_max (bounds : List (ℚ × ℚ)) (bp_scale : ℚ) : ℚ :=
  (bounds.getD 3 (0, 0)).2 + 1 / bp_scale

/-- `__hdd_and_margin(bp)` (lines 185-194): per period, when
`bp <= bp_heat_max and bp > min_daily_temps[j]`, the pair of
`np.sum(np.maximum(bp - temps, 0))` and `np.count_nonzero` of that array,
else `(0, 0)`. -/
def hdd_and_margin (observed_daily_temps : List (List ℚ))
    (bounds : List (ℚ × ℚ)) (bp_scale : ℚ) (bp : ℚ) : List (ℚ × ℚ) :=
  observed_daily_temps.map (fun temps =>
    if bp ≤ bp_heat_max bounds bp_scale ∧ np_min temps < bp then
      ((temps.map (fun t => np_maximum (bp - t) 0)).sum,
        (np_count_nonzero (temps.map (fun t => np_maximum (bp - t) 0)) : ℚ))
    else (0, 0))

/-- `__hdd(bp)` (lines 199-203): `rounded = np.floor(bp*bp_scale)/bp_scale`,
`remainder = bp - rounded`, result `hdd + remainder*margin`. -/
def hdd_interp (observed_daily_temps : List (List ℚ)) (bounds : List (ℚ × ℚ))
    (bp_scale : ℚ) (bp : ℚ) : List ℚ :=
  let rounded := ((⌊bp * bp_scale⌋ : ℤ) : ℚ) / bp_scale
  (hdd_and_margin observed_daily_temps bounds bp_scale rounded).map
    (fun hm => hm.1 + (bp - rounded) * hm.2)

/-- `__cdd_and_margin(bp)` (lines 205-214): per period, when
`bp >= bp_cool_min and bp < max_daily_temps[j]`, the pair of
`np.sum(np.maximum(temps - bp, 0))` and `np.count_nonzero` of that array,
else `(0, 0)`. -/
def cdd_and_margin (observed_daily_temps : List (List ℚ))
    (bounds : List (ℚ × ℚ)) (bp_scale : ℚ) (bp : ℚ) : List (ℚ × ℚ) :=
  observed_daily_temps.map (fun temps =>
    if bp_cool_min bounds bp_scale ≤ bp ∧ bp < np_max temps then
      ((temps.map (fun t => np_maximum (t - bp) 0)).sum,
        (np_count_nonzero (temps.map (fun t => np_maximum (t - bp) 0)) : ℚ))
    else (0, 0))

/-- `__cdd(bp)` (lines 216-220): `rounded = np.ceil(bp*bp_scale)/bp_scale`,
`remainder = rounded - bp`, result `cdd + remainder*margin`. -/
def cdd_interp (observed_daily_temps : List (List ℚ)) (bounds : List (ℚ × ℚ))
    (bp_scale : ℚ) (bp : ℚ) : List ℚ :=
  let rounded := ((⌈bp * bp_scale⌉ : ℤ) : ℚ) / bp_scale
  (cdd_and_margin observed_daily_temps bounds bp_scale rounded).map
    (fun hm => hm.1 + (rounded - bp) * hm.2)

/-- The accelerated evaluator returned by `precompute_usage_estimates`
(lines 222-230): `heating = __hdd(bp_low)*ts_low`,
`cooling = __cdd(bp_high)*ts_high`, `base = n_days*base_load`,
result `(heating + cooling) + base` elementwise. -/
def precompute_usage_estimates (observed_daily_temps : List (List ℚ))
    (bounds : List (ℚ × ℚ)) (bp_scale : ℚ)
    (params : ℚ × ℚ × ℚ × ℚ × ℚ) : List ℚ :=
  match params with
  | (ts_low, ts_high, base_load, bp_low, bp_diff) =>
    let bp_high := bp_low + bp_diff
    let cooling := (cdd_interp observed_daily_temps bounds bp_scale bp_high).map
      (fun c => c * ts_high)
    let heating := (hdd_interp observed_daily_temps bounds bp_scale bp_low).map
      (fun h => h * ts_low)
    let base := observed_daily_temps.map
      (fun temps => (temps.length : ℚ) * base_load)
    List.zipWith (· + ·) (List.zipWith (· + ·) heating cooling) base

/-- Claim C1 refuted at a concrete on-grid input: temperatures `[[60, 65]]`
lie on the 0.1-degree grid, the balance point `65.05 = 1301/20` lies inside
the bounds box `bounds[3] = (60, 70)` and the precomputed range, yet the
accelerated evaluator returns `5.05` for the period while the brute-force
Degree-Day Kernel of `HDDCDDBalancePointModel.compute_usage_estimates`
returns `5.10`: the margin counted with `np.count_nonzero` omits the day
sitting exactly at the rounded-down grid point `65`, which contributes the
sub-grid remainder `0.05` at `bp = 65.05`. -/
theorem accelerator_misses_boundary_grid_day :
    precompute_usage_estimates [[60, 65]]
        [(0, 100), (0, 100), (0, 100), (60, 70), (0, 10)] 10
        (1, 1, 0, 1301/20, 0) = [101/20]
    ∧ HDDCDDBalancePointModel.compute_usage_estimates (1, 1, 0, 1301/20, 0)
        [[60, 65]] = [51/10]
    ∧ (101/20 : ℚ) ≠ 51/10
    ∧ (60 : ℚ) ≤ 1301/20 ∧ (1301/20 : ℚ) ≤ 70 := by
  have hfl : ((⌊(1301/20 : ℚ) * 10⌋ : ℤ) : ℚ) / 10 = 65 := by norm_num
  have hcl : ((⌈(1301/20 : ℚ) * 10⌉ : ℤ) : ℚ) / 10 = 651/10 := by
    have h : ⌈(1301/20 : ℚ) * 10⌉ = (651 : ℤ) := by
      rw [Int.ceil_eq_iff] ; constructor <;> norm_num
    rw [h] ; norm_num
  have hh : hdd_interp [[60, 65]]
      [(0, 100), (0, 100), (0, 100), (60, 70), (0, 10)] 10 (1301/20)
      = [101/20] := by
    rw [hdd_interp]
    rw [show ((⌊(1301/20 : ℚ) * 10⌋ : ℤ) : ℚ) / 10 = 65 from hfl]
    norm_num [hdd_and_margin, bp_heat_max, np_min, np_maximum, np_count_nonzero]
  have hc : cdd_interp [[60, 65]]
      [(0, 100), (0, 100), (0, 100), (60, 70), (0, 10)] 10 (1301/20)
      = [0] := by
    rw [cdd_interp]
    rw [show ((⌈(1301/20 : ℚ) * 10⌉ : ℤ) : ℚ) / 10 = 651/10 from hcl]
    norm_num [cdd_and_margin, bp_cool_min, np_max, np_maximum, np_count_nonzero]
  refine ⟨?_, ?_, by norm_num, by norm_num, by norm_num⟩
  · show List.zipWith (· + ·)
      (List.zipWith (· + ·)
        ((hdd_interp [[60, 65]]
          [(0, 100), (0, 100), (0, 100), (60, 70), (0, 10)] 10 (1301/20)).map
          (fun h => h * 1))
        ((cdd_interp [[60, 65]]
          [(0, 100), (0, 100), (0, 100), (60, 70), (0, 10)] 10 (1301/20 + 0)).map
          (fun c => c * 1)))
      ([[(60 : ℚ), 65]].map (fun temps => (temps.length : ℚ) * 0)) = [101/20]
    rw [show (1301/20 + 0 : ℚ) = 1301/20 by norm_num, hh, hc]
    norm_num
  · norm_num [HDDCDDBalancePointModel.compute_usage_estimates, np_maximum]
